import Mathlib

/-!
Verification of the interactive transform & animation engine of the
canvaskit-demo editor (frontend/src/lib): coordinate conversion, hit
testing, hover resolution, resize/rotate math, viewport culling, and the
per-shape animation state machine.

Numbers are modelled as rationals (`ℚ`): every arithmetic operation the
engine performs (add, subtract, multiply, divide, abs, max, min,
comparisons) is exact on `ℚ`, and all definitions stay computable so
concrete runs can be checked by `decide`.  The only transcendental
pieces — `Math.cos`, `Math.sin`, `Math.atan2` composed with the
degree/radian conversion — are kept abstract in a `Trig` bundle, since
none of the verified properties depend on actual trigonometric values.
JS division by zero yields a non-finite float; where a claim is about
that hazard, an instrumented `Option`-valued variant flags the zero
denominator explicitly.
-/

/-- 2D point, `utils/transform.ts` interface `Point`. -/
structure Point where
  x : ℚ
  y : ℚ
deriving DecidableEq, Repr

/-- Camera state, `types/camera.ts`: zoom plus pan offsets (the
`isPanning` flag plays no role in the geometry and is omitted). -/
structure CameraState where
  zoom : ℚ
  panX : ℚ
  panY : ℚ
deriving DecidableEq, Repr

/-- Abstract degree-based trigonometry: `cosd θ` stands for
`Math.cos(degToRad θ)`, `sind θ` for `Math.sin(degToRad θ)`, and
`atan2d dy dx` for `radToDeg(Math.atan2(dy, dx))`. -/
structure Trig where
  cosd : ℚ → ℚ
  sind : ℚ → ℚ
  atan2d : ℚ → ℚ → ℚ

/-- A trivial trig bundle used to instantiate theorems on inputs whose
rotation is `null`/`0`, where the trig functions are never consulted. -/
def trivTrig : Trig := ⟨fun _ => 1, fun _ => 0, fun _ _ => 0⟩

/-- Shape geometry shared by `ImageShape` and `TextShape`
(`types/shape.ts`): position, size, and rotation in degrees
(`null` means unrotated). -/
structure Shape where
  x : ℚ
  y : ℚ
  width : ℚ
  height : ℚ
  rotate : Option ℚ
deriving DecidableEq, Repr

/-- `utils/transform.ts` `getShapeCenter`. -/
def getShapeCenter (shape : Shape) : Point :=
  ⟨shape.x + shape.width / 2, shape.y + shape.height / 2⟩

/-- `utils/transform.ts` `rotatePoint`: rotate `point` about `center` by
`rotationDeg` degrees (identity when the angle is `0`). -/
def rotatePoint (T : Trig) (point center : Point) (rotationDeg : ℚ) : Point :=
  if rotationDeg = 0 then point
  else
    let dx := point.x - center.x
    let dy := point.y - center.y
    let c := T.cosd rotationDeg
    let s := T.sind rotationDeg
    ⟨dx * c - dy * s + center.x, dx * s + dy * c + center.y⟩

/-- `utils/transform.ts` `inverseRotatePoint`. -/
def inverseRotatePoint (T : Trig) (point center : Point) (rotationDeg : ℚ) : Point :=
  rotatePoint T point center (-rotationDeg)

/-- `utils/transform.ts` `worldToLocalSpace`: identity when rotation is
`null` or `0`, else the inverse rotation about the shape center. -/
def worldToLocalSpace (T : Trig) (point : Point) (shape : Shape)
    (rotation : Option ℚ) : Point :=
  match rotation with
  | none => point
  | some r =>
    if r = 0 then point
    else inverseRotatePoint T point (getShapeCenter shape) r

/-- `utils/transform.ts` `localToWorldSpace`. -/
def localToWorldSpace (T : Trig) (point : Point) (shape : Shape)
    (rotation : Option ℚ) : Point :=
  match rotation with
  | none => point
  | some r =>
    if r = 0 then point
    else rotatePoint T point (getShapeCenter shape) r

/-- `utils/transform.ts` `getAngleToPoint`: `atan2` of the offset,
normalized from `(-180, 180]` to `[0, 360)`. -/
def getAngleToPoint (T : Trig) (point center : Point) : ℚ :=
  let angle := T.atan2d (point.y - center.y) (point.x - center.x)
  if angle < 0 then angle + 360 else angle

/-- `utils/transform.ts` `calculateRotationDelta`: difference of two
angles with wraparound correction. -/
def calculateRotationDelta (initialAngle currentAngle : ℚ) : ℚ :=
  let delta := currentAngle - initialAngle
  if delta > 180 then delta - 360
  else if delta < -180 then delta + 360
  else delta

/-- `utils/coordinates.ts` `screenToWorld`. -/
def screenToWorld (screenX screenY : ℚ) (cameraState : CameraState) : Point :=
  ⟨(screenX - cameraState.panX) / cameraState.zoom,
   (screenY - cameraState.panY) / cameraState.zoom⟩

/-- `utils/coordinates.ts` `worldToScreen`. -/
def worldToScreen (worldX worldY : ℚ) (cameraState : CameraState) : Point :=
  ⟨worldX * cameraState.zoom + cameraState.panX,
   worldY * cameraState.zoom + cameraState.panY⟩

/-- The two radii of `DEFAULT_TOOL_BORDER` (`contants/const.ts`) that
drive handle hit testing; the colour and border fields are irrelevant
here and omitted. -/
structure ToolBorder where
  circleRadius : ℚ
  minCircleRadius : ℚ
deriving DecidableEq, Repr

/-- `contants/const.ts` `DEFAULT_TOOL_BORDER` (`circleRadius: 12`,
`minCircleRadius: 12`). -/
def DEFAULT_TOOL_BORDER : ToolBorder := ⟨12, 12⟩

/-- `contants/const.ts` `INVALID_INDEX = -1`. -/
def INVALID_INDEX : ℤ := -1

/-- `utils/resize.ts` `getResizeCircleRadius` (canonical variant): the
on-screen radius is `max(circleRadius * zoom, minCircleRadius)` pixels,
converted to world space by dividing by zoom. -/
def getResizeCircleRadius (zoom : ℚ) : ℚ :=
  let visualRadius :=
    max (DEFAULT_TOOL_BORDER.circleRadius * zoom) DEFAULT_TOOL_BORDER.minCircleRadius
  let worldRadius := visualRadius / zoom
  worldRadius

/-- `utils/resize.ts` `getResizeCircleRadius` (legacy variant): each
radius is scaled up by zoom when `zoom > 1` and floored at its base
value otherwise; no world-space conversion. -/
def getResizeCircleRadiusLegacy (zoom : ℚ) : ℚ :=
  let circleRadius :=
    if DEFAULT_TOOL_BORDER.circleRadius * zoom < DEFAULT_TOOL_BORDER.circleRadius
    then DEFAULT_TOOL_BORDER.circleRadius
    else DEFAULT_TOOL_BORDER.circleRadius * zoom
  let minCircleRadius :=
    if DEFAULT_TOOL_BORDER.minCircleRadius * zoom < DEFAULT_TOOL_BORDER.minCircleRadius
    then DEFAULT_TOOL_BORDER.minCircleRadius
    else DEFAULT_TOOL_BORDER.minCircleRadius * zoom
  if circleRadius < minCircleRadius then minCircleRadius else circleRadius

/-- The radius the claim ascribes to `getResizeCircleRadius`, following
the spec sentence word for word: `max(baseRadius, minScreenRadius)/zoom`
with `baseRadius = circleRadius` and `minScreenRadius =
minCircleRadius`, both unscaled. -/
def resizeCircleRadiusClaimed (zoom : ℚ) : ℚ :=
  max DEFAULT_TOOL_BORDER.circleRadius DEFAULT_TOOL_BORDER.minCircleRadius / zoom

/-- `utils/hit-test.ts` `isPointInRect`: closed comparisons on all four
edges. -/
def isPointInRect (point : Point) (x y width height : ℚ) : Bool :=
  decide (point.x ≥ x) && decide (point.x ≤ x + width) &&
    decide (point.y ≥ y) && decide (point.y ≤ y + height)

/-- `utils/hit-test.ts` `isPointInCircle`: squared distance compared
(closed) against squared radius. -/
def isPointInCircle (point : Point) (centerX centerY radius : ℚ) : Bool :=
  let dx := point.x - centerX
  let dy := point.y - centerY
  let distanceSquared := dx * dx + dy * dy
  decide (distanceSquared ≤ radius * radius)

/-- Loop of `utils/hit-test.ts` `findShapeAtPoint`: checks indices
`n-1, n-2, …, 0` (reverse draw order) and returns the first hit. -/
def findShapeAtPointGo (point : Point) (shapes : List Shape) : ℕ → ℤ
  | 0 => -1
  | n + 1 =>
    match shapes.get? n with
    | some shape =>
      if isPointInRect point shape.x shape.y shape.width shape.height
      then (n : ℤ)
      else findShapeAtPointGo point shapes n
    | none => findShapeAtPointGo point shapes n

/-- `utils/hit-test.ts` `findShapeAtPoint`: topmost (highest-index)
shape whose bounds contain the point, else `-1`. -/
def findShapeAtPoint (point : Point) (shapes : List Shape) : ℤ :=
  findShapeAtPointGo point shapes shapes.length

/-- `utils/resize.ts` `ROTATE_CIRCLE_OFFSET = 30`. -/
def ROTATE_CIRCLE_OFFSET : ℚ := 30

/-- `utils/resize.ts` `ResizeCorner`. -/
inductive ResizeCorner where
  | topLeft
  | topRight
  | bottomLeft
  | bottomRight
deriving DecidableEq, Repr

/-- `utils/resize.ts` `getShapeCorners`, as a function from corner name
to position. -/
def getShapeCorners (shape : Shape) : ResizeCorner → Point
  | .topLeft => ⟨shape.x, shape.y⟩
  | .topRight => ⟨shape.x + shape.width, shape.y⟩
  | .bottomLeft => ⟨shape.x, shape.y + shape.height⟩
  | .bottomRight => ⟨shape.x + shape.width, shape.y + shape.height⟩

/-- `utils/resize.ts` `getRotateCirclePosition`: a point
`ROTATE_CIRCLE_OFFSET` world units above the top-edge midpoint, rotated
about the shape center when the rotation is non-null and non-zero. -/
def getRotateCirclePosition (T : Trig) (shape : Shape)
    (rotation : Option ℚ) : Point :=
  let centerX := shape.x + shape.width / 2
  let centerY := shape.y - ROTATE_CIRCLE_OFFSET
  match rotation with
  | none => ⟨centerX, centerY⟩
  | some r =>
    if r = 0 then ⟨centerX, centerY⟩
    else rotatePoint T ⟨centerX, centerY⟩ (getShapeCenter shape) r

/-- `utils/resize.ts` `isHoveringRotateCircle`: the pointer is moved to
local space and tested against a circle centred `30 / zoom` above the
top-edge midpoint (matching the visual rendering in `drawing.ts`). -/
def isHoveringRotateCircle (T : Trig) (point : Point) (shape : Shape)
    (zoom : ℚ) (rotation : Option ℚ) : Bool :=
  let radius := getResizeCircleRadius zoom
  let centerX := shape.x + shape.width / 2
  let centerY := shape.y - 30 / zoom
  let transformedPoint := worldToLocalSpace T point shape rotation
  isPointInCircle transformedPoint centerX centerY radius

/-- `utils/resize.ts` `getHoveredResizeCorner`: corners tested in the
order top-right, bottom-right, bottom-left, top-left, against the
pointer transformed to local space. -/
def getHoveredResizeCorner (T : Trig) (point : Point) (shape : Shape)
    (zoom : ℚ) (rotation : Option ℚ) : Option ResizeCorner :=
  let radius := getResizeCircleRadius zoom
  let corners := getShapeCorners shape
  let transformedPoint := worldToLocalSpace T point shape rotation
  if isPointInCircle transformedPoint (corners .topRight).x (corners .topRight).y radius
  then some .topRight
  else if isPointInCircle transformedPoint (corners .bottomRight).x (corners .bottomRight).y radius
  then some .bottomRight
  else if isPointInCircle transformedPoint (corners .bottomLeft).x (corners .bottomLeft).y radius
  then some .bottomLeft
  else if isPointInCircle transformedPoint (corners .topLeft).x (corners .topLeft).y radius
  then some .topLeft
  else none

/-- `utils/resize.ts` `getAnchorPoint`: the corner diagonally opposite
the one being dragged. -/
def getAnchorPoint (corner : ResizeCorner) (shape : Shape) : Point :=
  match corner with
  | .topLeft => ⟨shape.x + shape.width, shape.y + shape.height⟩
  | .topRight => ⟨shape.x, shape.y + shape.height⟩
  | .bottomLeft => ⟨shape.x + shape.width, shape.y⟩
  | .bottomRight => ⟨shape.x, shape.y⟩

/-- Width/height pair produced by the resize pipeline. -/
structure Dims where
  width : ℚ
  height : ℚ
deriving DecidableEq, Repr

/-- `utils/resize.ts` `calculateDimensionsFromAnchor`: the axis with the
larger absolute delta wins and the other dimension is derived from the
aspect ratio. -/
def calculateDimensionsFromAnchor (anchor mousePos : Point)
    (aspectRatio : ℚ) : Dims :=
  let dx := mousePos.x - anchor.x
  let dy := mousePos.y - anchor.y
  let absDx := |dx|
  let absDy := |dy|
  if absDx > absDy then ⟨absDx, absDx / aspectRatio⟩
  else ⟨absDy * aspectRatio, absDy⟩

/-- `utils/resize.ts` `calculatePositionFromAnchor`. -/
def calculatePositionFromAnchor (corner : ResizeCorner) (anchor : Point)
    (width height : ℚ) : Point :=
  match corner with
  | .topLeft => ⟨anchor.x - width, anchor.y - height⟩
  | .topRight => ⟨anchor.x, anchor.y - height⟩
  | .bottomLeft => ⟨anchor.x - width, anchor.y⟩
  | .bottomRight => ⟨anchor.x, anchor.y⟩

/-- `utils/resize.ts` `applyMinSizeConstraints` (default
`minSize = 10`): when either dimension is below the minimum, one
dimension is clamped and the other re-derived from the aspect ratio. -/
def applyMinSizeConstraints (width height aspectRatio minSize : ℚ) : Dims :=
  if width ≥ minSize ∧ height ≥ minSize then ⟨width, height⟩
  else if width < height then
    let newHeight := max height minSize
    ⟨newHeight * aspectRatio, newHeight⟩
  else
    let newWidth := max width minSize
    ⟨newWidth, newWidth / aspectRatio⟩

/-- `types/editor.ts` `ResizeState`: snapshot of the shape, the mouse
position, and the aspect ratio fixed at drag start. -/
structure ResizeState where
  shape : Shape
  startMousePos : Point
  aspectRatio : ℚ
deriving DecidableEq, Repr

/-- `utils/shape-operations.ts` `initializeResize`: the aspect ratio is
`shape.width / shape.height`, computed with no guard on the height. -/
def initializeResize (shape : Shape) (mouseWorldPos : Point) : ResizeState :=
  ⟨shape, mouseWorldPos, shape.width / shape.height⟩

/-- `initializeResize` with its one division instrumented: `none` marks
the case `shape.height = 0`, where the unguarded float division in the
source produces a non-finite aspect ratio (`Infinity` or `NaN`) that
`ℚ`-division cannot represent. -/
def initializeResizeChecked (shape : Shape) (mouseWorldPos : Point) :
    Option ResizeState :=
  if shape.height = 0 then none
  else some (initializeResize shape mouseWorldPos)

/-- Result geometry of `calculateResize`. -/
structure ResizeResult where
  x : ℚ
  y : ℚ
  width : ℚ
  height : ℚ
deriving DecidableEq, Repr

/-- `utils/shape-operations.ts` `calculateResize`: local-space pointer,
anchor at the opposite corner, aspect-locked dimensions, minimum-size
constraints, and position recomputed from the anchor. -/
def calculateResize (T : Trig) (resizeState : ResizeState)
    (corner : ResizeCorner) (mouseWorldPos : Point)
    (rotation : Option ℚ) : ResizeResult :=
  let localMousePos := worldToLocalSpace T mouseWorldPos resizeState.shape rotation
  let anchor := getAnchorPoint corner resizeState.shape
  let dims := calculateDimensionsFromAnchor anchor localMousePos resizeState.aspectRatio
  let constrained := applyMinSizeConstraints dims.width dims.height resizeState.aspectRatio 10
  let pos := calculatePositionFromAnchor corner anchor constrained.width constrained.height
  ⟨pos.x, pos.y, constrained.width, constrained.height⟩

/-- `types/editor.ts` `RotationState`. -/
structure RotationState where
  initialRotation : ℚ
  initialAngle : ℚ
deriving DecidableEq, Repr

/-- `utils/shape-operations.ts` `initializeRotation`. -/
def initializeRotation (T : Trig) (shape : Shape)
    (mouseWorldPos : Point) : RotationState :=
  ⟨shape.rotate.getD 0, getAngleToPoint T mouseWorldPos (getShapeCenter shape)⟩

/-- `utils/shape-operations.ts` `calculateRotation`: current
angle-to-center, wraparound-corrected delta, and a single ±360
normalization step. -/
def calculateRotation (T : Trig) (rotationState : RotationState)
    (mouseWorldPos shapeCenter : Point) : ℚ :=
  let currentAngle := getAngleToPoint T mouseWorldPos shapeCenter
  let rotationDelta := calculateRotationDelta rotationState.initialAngle currentAngle
  let newRotation := rotationState.initialRotation + rotationDelta
  if newRotation < 0 then newRotation + 360
  else if newRotation ≥ 360 then newRotation - 360
  else newRotation

/-- JavaScript array indexing with an `Int` index: `undefined` (here
`none`) for negative or out-of-range indices. -/
def jsGet (shapes : List Shape) (index : ℤ) : Option Shape :=
  if 0 ≤ index then shapes.get? index.toNat else none

/-- `routes/Editor.svelte` `isValidShapeIndex`: the validator the editor
passes to `detectHover` — the index is not `INVALID_INDEX`, is below the
list length, and actually addresses an element. -/
def isValidShapeIndexEditor (shapes : List Shape) (index : ℤ) : Bool :=
  decide (index ≠ INVALID_INDEX) && decide (index < (shapes.length : ℤ)) &&
    (jsGet shapes index).isSome

/-- `utils/hover-detection.ts` `HoverDetectionResult`. -/
structure HoverDetectionResult where
  shapeIndex : ℤ
  resizeCorner : Option ResizeCorner
  isHoveringRotateCircle : Bool
deriving DecidableEq, Repr

/-- Handle-checking step of `utils/hover-detection.ts` `detectHover`:
rotate circle first, then resize corners, both only for a valid selected
shape (the source writes the two fields sequentially; here they are the
two components of the returned pair).  When the validator accepts an
index that addresses no element the source would fault on the field
access; that case is modelled as "no handle hover" and is unreachable
under the editor's validator. -/
def detectHoverHandles (T : Trig) (worldPos : Point) (shapes : List Shape)
    (selectedShapeIndex : ℤ) (zoom : ℚ)
    (isValidShapeIdx : ℤ → Bool) : Bool × Option ResizeCorner :=
  if isValidShapeIdx selectedShapeIndex then
    match jsGet shapes selectedShapeIndex with
    | some selectedShape =>
      let rotation := selectedShape.rotate
      let hoveringRotate := isHoveringRotateCircle T worldPos selectedShape zoom rotation
      if hoveringRotate then (true, none)
      else (false, getHoveredResizeCorner T worldPos selectedShape zoom rotation)
    | none => (false, none)
  else (false, none)

/-- `utils/hover-detection.ts` `detectHover`: strict priority — rotate
circle, then resize corner, then topmost shape body, the body hit
suppressed when it is the selected shape itself. -/
def detectHover (T : Trig) (worldPos : Point) (shapes : List Shape)
    (selectedShapeIndex : ℤ) (zoom : ℚ)
    (isValidShapeIdx : ℤ → Bool) : HoverDetectionResult :=
  let handles :=
    detectHoverHandles T worldPos shapes selectedShapeIndex zoom isValidShapeIdx
  let shapeIndex : ℤ :=
    if handles.1 = false ∧ handles.2 = none then
      let foundShapeIndex := findShapeAtPoint worldPos shapes
      if foundShapeIndex ≠ selectedShapeIndex then foundShapeIndex
      else INVALID_INDEX
    else INVALID_INDEX
  ⟨shapeIndex, handles.2, handles.1⟩

/-- `editor/…` viewport bounds in world coordinates. -/
structure Viewport where
  left : ℚ
  right : ℚ
  top : ℚ
  bottom : ℚ
deriving DecidableEq, Repr

/-- `calculateViewport` (culling utility): the visible world rectangle
derived from camera state and canvas pixel size. -/
def calculateViewport (canvasWidth canvasHeight : ℚ)
    (cameraState : CameraState) : Viewport :=
  ⟨(-cameraState.panX) / cameraState.zoom,
   (canvasWidth - cameraState.panX) / cameraState.zoom,
   (-cameraState.panY) / cameraState.zoom,
   (canvasHeight - cameraState.panY) / cameraState.zoom⟩

/-- `isRectVisible` (culling utility): a rectangle is visible unless it
lies strictly outside the viewport on some axis. -/
def isRectVisible (x y width height : ℚ) (viewport : Viewport) : Bool :=
  let right := x + width
  let bottom := y + height
  !(decide (right < viewport.left) || decide (x > viewport.right) ||
    decide (bottom < viewport.top) || decide (y > viewport.bottom))

/-- `types/shape.ts` animation kinds. -/
inductive AnimationType where
  | none
  | fade
  | wipe
  | raise
  | pan
deriving DecidableEq, Repr

/-- Pan direction for the `pan` animation. -/
inductive PanDirection where
  | left
  | right
deriving DecidableEq, Repr

/-- `types/shape.ts` `ShapeAnimation`: optional duration (default 300),
delay (default 0) and pan direction (default left). -/
structure ShapeAnimation where
  type : AnimationType
  duration : Option ℚ
  delay : Option ℚ
  direction : Option PanDirection
deriving DecidableEq, Repr

/-- `canvakit/animation.ts` `AnimatedShape`: the geometry plus animation
fields shared by image and text shapes. -/
structure AnimatedShape where
  animation : Option ShapeAnimation
  animationStart : Option ℚ
  x : ℚ
  y : ℚ
  width : ℚ
  height : ℚ
deriving DecidableEq, Repr

/-- `canvakit/animation.ts` `AnimationState`; the clip rectangle is the
`(x, y, w, h)` tuple passed to `ck.XYWHRect`. -/
structure AnimationState where
  shouldDraw : Bool
  alpha : ℚ
  clipRect : Option (ℚ × ℚ × ℚ × ℚ)
  offsetX : ℚ
  offsetY : ℚ
  progress : ℚ
  isAnimating : Bool
deriving DecidableEq, Repr

/-- `canvakit/animation.ts` `DEFAULT_ANIMATION_DURATION = 300` ms. -/
def DEFAULT_ANIMATION_DURATION : ℚ := 300

/-- `canvakit/animation.ts` `calculateAnimationState`.  The source
lazily writes `animationStart` on the shape; here the (possibly
updated) start time is returned alongside the state.  Branch for branch:
forced final state, lazy start, delay-period initial poses, then
progress clamped to `[0, 1]` with ease-out cubic applied to raise/pan
only. -/
def calculateAnimationState (shape : AnimatedShape) (now : ℚ)
    (forceFinalState : Bool) : AnimationState × Option ℚ :=
  let animation := shape.animation.getD ⟨AnimationType.none, none, none, none⟩
  let animType := animation.type
  let animDuration := animation.duration.getD DEFAULT_ANIMATION_DURATION
  let animDelay := animation.delay.getD 0
  if forceFinalState then
    (⟨true, 1, none, 0, 0, 1, false⟩, shape.animationStart)
  else
    let start :=
      if animType ≠ AnimationType.none ∧ shape.animationStart = none
      then some now else shape.animationStart
    match start with
    | none => (⟨true, 1, none, 0, 0, 1, false⟩, start)
    | some startTime =>
      if animType = AnimationType.none then
        (⟨true, 1, none, 0, 0, 1, false⟩, start)
      else
        let elapsed := now - startTime
        if elapsed < animDelay then
          let state : AnimationState :=
            match animType with
            | AnimationType.fade => ⟨false, 0, none, 0, 0, 0, true⟩
            | AnimationType.wipe => ⟨false, 1, none, 0, 0, 0, true⟩
            | AnimationType.raise => ⟨true, 1, none, 0, shape.height, 0, true⟩
            | AnimationType.pan =>
              let direction := animation.direction.getD PanDirection.left
              let offsetX :=
                if direction = PanDirection.left then -shape.width else shape.width
              ⟨true, 1, none, offsetX, 0, 0, true⟩
            | AnimationType.none => ⟨true, 1, none, 0, 0, 0, true⟩
          (state, start)
        else
          let animationElapsed := elapsed - animDelay
          let progress := max 0 (min 1 (animationElapsed / animDuration))
          let isAnimating := decide (progress < 1)
          let easedProgress := 1 - (1 - progress) ^ 3
          let state : AnimationState :=
            match animType with
            | AnimationType.fade => ⟨true, progress, none, 0, 0, progress, isAnimating⟩
            | AnimationType.wipe =>
              let dstHeight := shape.height * progress
              if dstHeight > 0 then
                ⟨true, 1, some (shape.x, shape.y, shape.width, dstHeight), 0, 0,
                  progress, isAnimating⟩
              else ⟨false, 1, none, 0, 0, progress, isAnimating⟩
            | AnimationType.raise =>
              ⟨true, 1, none, 0, shape.height * (1 - easedProgress), progress, isAnimating⟩
            | AnimationType.pan =>
              let direction := animation.direction.getD PanDirection.left
              let offsetX :=
                if direction = PanDirection.left
                then -shape.width * (1 - easedProgress)
                else shape.width * (1 - easedProgress)
              ⟨true, 1, none, offsetX, 0, progress, isAnimating⟩
            | AnimationType.none => ⟨true, 1, none, 0, 0, progress, isAnimating⟩
          (state, start)

/-- The wraparound delta as the spec phrases it: the representative of
`currentAngle - initialAngle` (mod 360) lying in `(-180, 180]`. -/
def wrapDeltaSpec (initialAngle currentAngle : ℚ) : ℚ :=
  let delta := currentAngle - initialAngle
  if delta > 180 then delta - 360
  else if delta ≤ -180 then delta + 360
  else delta

/-- Concrete shape used to exercise the rotate-handle geometry. -/
def demoShape : Shape := ⟨0, 0, 100, 50, none⟩

/-- Concrete fade-animated shape of the spec's scenario:
`duration = 300`, `delay = 0`, `animationStart = 0`. -/
def fadeDemo : AnimatedShape :=
  ⟨some ⟨AnimationType.fade, some 300, some 0, none⟩, some 0, 0, 0, 100, 50⟩

/-- Concrete viewport used for the culling edge cases. -/
def demoViewport : Viewport := ⟨0, 100, 0, 100⟩

/-! ## Helper lemmas (shared, not claim-specific) -/

/-- If some index below the fuel bound holds a shape containing the
point, the reverse-order search loop does not report `-1`. -/
lemma findShapeAtPointGo_hit (point : Point) (shapes : List Shape) :
    ∀ (n i : ℕ) (s : Shape), i < n → shapes.get? i = some s →
      isPointInRect point s.x s.y s.width s.height = true →
      findShapeAtPointGo point shapes n ≠ -1 := by
  intro n
  induction n with
  | zero => intro i s hi _ _; omega
  | succ n ih =>
    intro i s hi hget hhit
    show findShapeAtPointGo point shapes (n + 1) ≠ -1
    rw [findShapeAtPointGo]
    cases hgn : shapes.get? n with
    | some sh =>
      by_cases hb : isPointInRect point sh.x sh.y sh.width sh.height = true
      · simp only [hb, if_true]
        omega
      · simp only [hb, if_false, Bool.false_eq_true]
        rcases Nat.lt_succ_iff_lt_or_eq.mp hi with hlt | heq
        · exact ih i s hlt hget hhit
        · subst heq
          rw [hget] at hgn
          cases hgn
          exact absurd hhit hb
    | none =>
      rcases Nat.lt_succ_iff_lt_or_eq.mp hi with hlt | heq
      · exact ih i s hlt hget hhit
      · subst heq
        rw [hget] at hgn
        cases hgn

/-! ## Claim theorems -/

/-- C9: for every camera state with `zoom ≠ 0`, converting a world point
to screen coordinates and back with `worldToScreen` / `screenToWorld`
returns the original point exactly. -/
theorem screenToWorld_worldToScreen_roundtrip (cameraState : CameraState)
    (worldX worldY : ℚ) (hz : cameraState.zoom ≠ 0) :
    screenToWorld (worldToScreen worldX worldY cameraState).x
        (worldToScreen worldX worldY cameraState).y cameraState
      = ⟨worldX, worldY⟩ := by
  simp only [screenToWorld, worldToScreen, Point.mk.injEq]
  constructor <;> field_simp

/-- Witness for C9: an explicit round trip through camera
`{zoom: 2, panX: 3, panY: 4}` at the world point `(5, 7)`. -/
theorem screenToWorld_worldToScreen_roundtrip_witness :
    screenToWorld (worldToScreen 5 7 ⟨2, 3, 4⟩).x
        (worldToScreen 5 7 ⟨2, 3, 4⟩).y ⟨2, 3, 4⟩ = ⟨5, 7⟩ :=
  screenToWorld_worldToScreen_roundtrip ⟨2, 3, 4⟩ 5 7 (by norm_num)

/-- C8: `isRectVisible` is exactly the negated strict-separation test of
the claim, `calculateViewport` is exactly the claimed camera-derived
rectangle, and at the claimed edge cases a rectangle entirely left of
the viewport is culled while one overlapping the left edge is kept. -/
theorem viewport_culling_spec :
    (∀ (x y width height : ℚ) (viewport : Viewport),
      isRectVisible x y width height viewport = true ↔
        ¬(x + width < viewport.left ∨ x > viewport.right ∨
          y + height < viewport.top ∨ y > viewport.bottom))
    ∧ (∀ (canvasWidth canvasHeight : ℚ) (cameraState : CameraState),
      calculateViewport canvasWidth canvasHeight cameraState =
        ⟨(-cameraState.panX) / cameraState.zoom,
         (canvasWidth - cameraState.panX) / cameraState.zoom,
         (-cameraState.panY) / cameraState.zoom,
         (canvasHeight - cameraState.panY) / cameraState.zoom⟩)
    ∧ isRectVisible (-30) 0 10 10 demoViewport = false
    ∧ isRectVisible (-5) 0 10 10 demoViewport = true := by
  refine ⟨?_, ?_, ?_, ?_⟩
  · intro x y width height viewport
    simp [isRectVisible]
    tauto
  · intro canvasWidth canvasHeight cameraState
    rfl
  · norm_num [isRectVisible, demoViewport]
  · norm_num [isRectVisible, demoViewport]

/-- C10: hit regions are closed sets — `isPointInRect` accepts points
exactly on the rectangle edge (all comparisons non-strict),
`isPointInCircle` accepts points exactly at distance `radius`, and a
point on a shape's boundary therefore makes `findShapeAtPoint` report a
hit; the closed conjuncts check a corner point of a rectangle and a
point exactly on a circle of radius 5. -/
theorem hit_regions_closed :
    (∀ (point : Point) (x y width height : ℚ),
      isPointInRect point x y width height = true ↔
        x ≤ point.x ∧ point.x ≤ x + width ∧ y ≤ point.y ∧ point.y ≤ y + height)
    ∧ (∀ (point : Point) (centerX centerY radius : ℚ),
      isPointInCircle point centerX centerY radius = true ↔
        (point.x - centerX) * (point.x - centerX) +
          (point.y - centerY) * (point.y - centerY) ≤ radius * radius)
    ∧ (∀ (point : Point) (shapes : List Shape) (i : ℕ) (s : Shape),
      shapes.get? i = some s →
      isPointInRect point s.x s.y s.width s.height = true →
      findShapeAtPoint point shapes ≠ INVALID_INDEX)
    ∧ isPointInRect ⟨10, 5⟩ 0 0 10 10 = true
    ∧ isPointInCircle ⟨3, 4⟩ 0 0 5 = true := by
  refine ⟨?_, ?_, ?_, ?_, ?_⟩
  · intro point x y width height
    simp [isPointInRect]
    tauto
  · intro point centerX centerY radius
    simp [isPointInCircle]
  · intro point shapes i s hget hhit
    have hi : i < shapes.length := by
      by_contra hge
      rw [List.get?_eq_none.mpr (Nat.le_of_not_lt hge)] at hget
      cases hget
    exact findShapeAtPointGo_hit point shapes shapes.length i s hi hget hhit
  · norm_num [isPointInRect]
  · norm_num [isPointInCircle]

/-- Witness for C10: the point `(10, 5)` lies exactly on the right edge
of the rectangle shape `(0, 0, 10, 10)` and `findShapeAtPoint` reports a
hit for it. -/
theorem hit_regions_closed_witness :
    findShapeAtPoint ⟨10, 5⟩ [⟨0, 0, 10, 10, none⟩] ≠ INVALID_INDEX :=
  hit_regions_closed.2.2.1 ⟨10, 5⟩ [⟨0, 0, 10, 10, none⟩] 0 ⟨0, 0, 10, 10, none⟩
    rfl (by norm_num [isPointInRect])

/-- C1 counterexample: at zoom `2` the code's world-space handle radius
is `12` (the visual radius `max(12·2, 12) = 24` px divided by zoom),
while the claimed `max(baseRadius, minScreenRadius)/zoom = 12/2` is `6`:
the claim's formula forgets that `circleRadius` is first scaled by
zoom. -/
theorem getResizeCircleRadius_claim_counterexample :
    getResizeCircleRadius 2 = 12
    ∧ resizeCircleRadiusClaimed 2 = 6
    ∧ getResizeCircleRadius 2 ≠ resizeCircleRadiusClaimed 2 := by
  norm_num [getResizeCircleRadius, resizeCircleRadiusClaimed, DEFAULT_TOOL_BORDER]

/-- C1 as amended: for every zoom `z > 0` the world-space hit radius is
`max(circleRadius·z, minCircleRadius)/z` — equal to
`minCircleRadius/z` for `z ≤ 1` and to the constant `circleRadius` for
`z ≥ 1`; the legacy variant returns the unconverted screen radius
`max(circleRadius·z, minCircleRadius)`. -/
theorem getResizeCircleRadius_zoom_characterization (zoom : ℚ) (hz : 0 < zoom) :
    getResizeCircleRadius zoom =
      max (DEFAULT_TOOL_BORDER.circleRadius * zoom) DEFAULT_TOOL_BORDER.minCircleRadius / zoom
    ∧ (1 ≤ zoom → getResizeCircleRadius zoom = DEFAULT_TOOL_BORDER.circleRadius)
    ∧ (zoom ≤ 1 → getResizeCircleRadius zoom = DEFAULT_TOOL_BORDER.minCircleRadius / zoom)
    ∧ getResizeCircleRadiusLegacy zoom =
        max (DEFAULT_TOOL_BORDER.circleRadius * zoom) DEFAULT_TOOL_BORDER.minCircleRadius := by
  refine ⟨rfl, ?_, ?_, ?_⟩
  · intro h1
    have hmax : max (DEFAULT_TOOL_BORDER.circleRadius * zoom) DEFAULT_TOOL_BORDER.minCircleRadius
        = DEFAULT_TOOL_BORDER.circleRadius * zoom := by
      apply max_eq_left
      show (12 : ℚ) ≤ 12 * zoom
      nlinarith
    show max (DEFAULT_TOOL_BORDER.circleRadius * zoom) DEFAULT_TOOL_BORDER.minCircleRadius / zoom
      = DEFAULT_TOOL_BORDER.circleRadius
    rw [hmax]
    field_simp
  · intro h1
    have hmax : max (DEFAULT_TOOL_BORDER.circleRadius * zoom) DEFAULT_TOOL_BORDER.minCircleRadius
        = DEFAULT_TOOL_BORDER.minCircleRadius := by
      apply max_eq_right
      show (12 : ℚ) * zoom ≤ 12
      nlinarith
    show max (DEFAULT_TOOL_BORDER.circleRadius * zoom) DEFAULT_TOOL_BORDER.minCircleRadius / zoom
      = DEFAULT_TOOL_BORDER.minCircleRadius / zoom
    rw [hmax]
  · simp only [getResizeCircleRadiusLegacy, DEFAULT_TOOL_BORDER, max_def]
    split_ifs <;> linarith

/-- Witness for C1's amended characterization, at zoom `2`: the radius
equals the constant `circleRadius` since `1 ≤ 2`. -/
theorem getResizeCircleRadius_zoom_characterization_witness :
    getResizeCircleRadius 2 = DEFAULT_TOOL_BORDER.circleRadius :=
  (getResizeCircleRadius_zoom_characterization 2 (by norm_num)).2.1 (by norm_num)

/-- C2: the minimum-size clamp breaks its own contract.  With the
starting aspect ratio `2` (shape snapshot `4×2`, corner bottom-right,
pointer at local `(4, 2)`), `calculateResize` returns `10×5`: the width
is clamped to `MIN_SIZE = 10` but the derived height `5` stays below the
minimum — `applyMinSizeConstraints` rescales from whichever dimension is
currently larger instead of the one requiring the larger upscale.  The
aspect ratio itself is preserved exactly (`10/5 = 2`). -/
theorem calculateResize_min_size_violation :
    calculateResize trivTrig ⟨⟨0, 0, 4, 2, none⟩, ⟨0, 0⟩, 2⟩
        ResizeCorner.bottomRight ⟨4, 2⟩ none = ⟨0, 0, 10, 5⟩
    ∧ (calculateResize trivTrig ⟨⟨0, 0, 4, 2, none⟩, ⟨0, 0⟩, 2⟩
        ResizeCorner.bottomRight ⟨4, 2⟩ none).height < 10
    ∧ (calculateResize trivTrig ⟨⟨0, 0, 4, 2, none⟩, ⟨0, 0⟩, 2⟩
          ResizeCorner.bottomRight ⟨4, 2⟩ none).width /
        (calculateResize trivTrig ⟨⟨0, 0, 4, 2, none⟩, ⟨0, 0⟩, 2⟩
          ResizeCorner.bottomRight ⟨4, 2⟩ none).height = 2 := by
  norm_num [calculateResize, worldToLocalSpace, getAnchorPoint,
    calculateDimensionsFromAnchor, applyMinSizeConstraints,
    calculatePositionFromAnchor]

/-- C4: the degenerate-aspect-ratio guard the claim asserts does not
exist — `initializeResize` divides `width / height` unconditionally, so
for a shape with `height = 0` the instrumented division reports the zero
denominator (a non-finite aspect ratio in the float source).  Also, a
zero-length delta (pointer exactly at the anchor) is not "no change":
for a `40×20` shape with aspect `2` it yields `10×5`. -/
theorem initializeResize_zero_height_unguarded :
    initializeResizeChecked ⟨0, 0, 100, 0, none⟩ ⟨0, 0⟩ = none
    ∧ calculateResize trivTrig ⟨⟨0, 0, 40, 20, none⟩, ⟨0, 0⟩, 2⟩
        ResizeCorner.bottomRight ⟨0, 0⟩ none = ⟨0, 0, 10, 5⟩
    ∧ (⟨0, 0, 10, 5⟩ : ResizeResult) ≠ ⟨0, 0, 40, 20⟩ := by
  refine ⟨by norm_num [initializeResizeChecked], ?_, by norm_num⟩
  norm_num [calculateResize, worldToLocalSpace, getAnchorPoint,
    calculateDimensionsFromAnchor, applyMinSizeConstraints,
    calculatePositionFromAnchor]

/-- C3 counterexample: at zoom `2` (unrotated `demoShape`
`(0, 0, 100, 50)`) the rotate-handle hit test is centred at
`(50, 0 - 30/2) = (50, -15)` — the point `(50, -15)` hits — but
`getRotateCirclePosition` returns `(50, -30)`, not the claimed
`(x + width/2, y - 30/zoom)`. -/
theorem getRotateCirclePosition_claim_counterexample :
    isHoveringRotateCircle trivTrig ⟨50, -15⟩ demoShape 2 none = true
    ∧ getRotateCirclePosition trivTrig demoShape none = ⟨50, -30⟩
    ∧ getRotateCirclePosition trivTrig demoShape none
        ≠ ⟨demoShape.x + demoShape.width / 2, demoShape.y - 30 / 2⟩ := by
  refine ⟨?_, ?_, ?_⟩
  · norm_num [isHoveringRotateCircle, worldToLocalSpace, isPointInCircle,
      getResizeCircleRadius, DEFAULT_TOOL_BORDER, demoShape]
  · norm_num [getRotateCirclePosition, demoShape, ROTATE_CIRCLE_OFFSET]
  · norm_num [getRotateCirclePosition, demoShape, ROTATE_CIRCLE_OFFSET]

/-- C3 as amended: `isHoveringRotateCircle` tests the local-space point
against a circle centred at `(x + width/2, y - 30/zoom)` with the
world-space handle radius, while `getRotateCirclePosition` places the
handle at the fixed world offset `(x + width/2, y - 30)` — rotated about
the shape's center when the rotation is non-null and non-zero — which
coincides with the hit-test center exactly when `zoom = 1`. -/
theorem rotate_handle_geometry (T : Trig) (point : Point) (shape : Shape)
    (zoom : ℚ) (rotation : Option ℚ) :
    isHoveringRotateCircle T point shape zoom rotation =
      isPointInCircle (worldToLocalSpace T point shape rotation)
        (shape.x + shape.width / 2) (shape.y - 30 / zoom)
        (getResizeCircleRadius zoom)
    ∧ getRotateCirclePosition T shape none =
        ⟨shape.x + shape.width / 2, shape.y - ROTATE_CIRCLE_OFFSET⟩
    ∧ (∀ r : ℚ, r ≠ 0 → getRotateCirclePosition T shape (some r) =
        rotatePoint T ⟨shape.x + shape.width / 2, shape.y - ROTATE_CIRCLE_OFFSET⟩
          (getShapeCenter shape) r)
    ∧ (zoom = 1 → shape.y - 30 / zoom = shape.y - ROTATE_CIRCLE_OFFSET) := by
  refine ⟨rfl, rfl, ?_, ?_⟩
  · intro r hr
    simp [getRotateCirclePosition, hr]
  · intro h
    subst h
    norm_num [ROTATE_CIRCLE_OFFSET]

/-- Witness for C3's amended geometry: for `demoShape` rotated by `90`
degrees the handle position is the rotation of `(50, -30)` about the
shape center, and at zoom `1` the hit-test center agrees with the fixed
world offset. -/
theorem rotate_handle_geometry_witness :
    getRotateCirclePosition trivTrig demoShape (some 90) =
      rotatePoint trivTrig ⟨demoShape.x + demoShape.width / 2,
        demoShape.y - ROTATE_CIRCLE_OFFSET⟩ (getShapeCenter demoShape) 90
    ∧ demoShape.y - 30 / 1 = demoShape.y - ROTATE_CIRCLE_OFFSET :=
  ⟨(rotate_handle_geometry trivTrig ⟨0, 0⟩ demoShape 1 none).2.2.1 90 (by norm_num),
   (rotate_handle_geometry trivTrig ⟨0, 0⟩ demoShape 1 none).2.2.2 rfl⟩

/-- Evaluation of `calculateAnimationState` on the post-delay path of a
fade animation with a set start time. -/
lemma calculateAnimationState_fade_eval (shape : AnimatedShape)
    (now startTime : ℚ) (anim : ShapeAnimation)
    (ha : shape.animation = some anim) (hty : anim.type = AnimationType.fade)
    (hs : shape.animationStart = some startTime)
    (hdel : anim.delay.getD 0 ≤ now - startTime) :
    (calculateAnimationState shape now false).1 =
      ⟨true,
       max 0 (min 1 ((now - startTime - anim.delay.getD 0) /
         anim.duration.getD DEFAULT_ANIMATION_DURATION)),
       none, 0, 0,
       max 0 (min 1 ((now - startTime - anim.delay.getD 0) /
         anim.duration.getD DEFAULT_ANIMATION_DURATION)),
       decide (max 0 (min 1 ((now - startTime - anim.delay.getD 0) /
         anim.duration.getD DEFAULT_ANIMATION_DURATION)) < 1)⟩ := by
  have h1 : ¬(now - startTime < anim.delay.getD 0) := not_lt.mpr hdel
  simp only [calculateAnimationState, ha, hs, hty, Option.getD_some, reduceCtorEq,
    ne_eq, not_false_iff, and_false, if_false, ite_false, h1]

/-- C7: for a fade animation whose start is set, once
`elapsed ≥ delay` the alpha equals the progress, the progress is
`clamp((elapsed - delay)/duration, 0, 1)` (linear, no easing), and
`isAnimating` holds exactly while `progress < 1`; in the spec scenario
(`duration = 300`, `delay = 0`, start at `0`) the state at `now = 150`
is `alpha = 1/2`, still animating, and at `now = 300` it is `alpha = 1`,
settled. -/
theorem calculateAnimationState_fade_spec (shape : AnimatedShape)
    (now startTime : ℚ) (anim : ShapeAnimation)
    (ha : shape.animation = some anim) (hty : anim.type = AnimationType.fade)
    (hs : shape.animationStart = some startTime)
    (_hdur : 0 < anim.duration.getD DEFAULT_ANIMATION_DURATION)
    (hdel : anim.delay.getD 0 ≤ now - startTime) :
    ((calculateAnimationState shape now false).1.alpha
        = (calculateAnimationState shape now false).1.progress)
    ∧ (calculateAnimationState shape now false).1.progress
        = max 0 (min 1 ((now - startTime - anim.delay.getD 0) /
            anim.duration.getD DEFAULT_ANIMATION_DURATION))
    ∧ ((calculateAnimationState shape now false).1.isAnimating = true
        ↔ (calculateAnimationState shape now false).1.progress < 1)
    ∧ (calculateAnimationState fadeDemo 150 false).1.alpha = 1/2
    ∧ (calculateAnimationState fadeDemo 150 false).1.isAnimating = true
    ∧ (calculateAnimationState fadeDemo 300 false).1.alpha = 1
    ∧ (calculateAnimationState fadeDemo 300 false).1.isAnimating = false := by
  rw [calculateAnimationState_fade_eval shape now startTime anim ha hty hs hdel]
  refine ⟨rfl, rfl, by simp, ?_, ?_, ?_, ?_⟩
  · rw [calculateAnimationState_fade_eval fadeDemo 150 0
      ⟨AnimationType.fade, some 300, some 0, none⟩ rfl rfl rfl (by norm_num)]
    norm_num
  · rw [calculateAnimationState_fade_eval fadeDemo 150 0
      ⟨AnimationType.fade, some 300, some 0, none⟩ rfl rfl rfl (by norm_num)]
    norm_num
  · rw [calculateAnimationState_fade_eval fadeDemo 300 0
      ⟨AnimationType.fade, some 300, some 0, none⟩ rfl rfl rfl (by norm_num)]
    norm_num
  · rw [calculateAnimationState_fade_eval fadeDemo 300 0
      ⟨AnimationType.fade, some 300, some 0, none⟩ rfl rfl rfl (by norm_num)]
    norm_num

/-- Witness for C7: the spec scenario itself, extracted from the claim
theorem applied at `fadeDemo` with `now = 150`. -/
theorem calculateAnimationState_fade_spec_witness :
    (calculateAnimationState fadeDemo 150 false).1.alpha = 1/2
    ∧ (calculateAnimationState fadeDemo 300 false).1.isAnimating = false :=
  ⟨(calculateAnimationState_fade_spec fadeDemo 150 0
      ⟨AnimationType.fade, some 300, some 0, none⟩ rfl rfl rfl (by norm_num)
      (by norm_num)).2.2.2.1,
   (calculateAnimationState_fade_spec fadeDemo 150 0
      ⟨AnimationType.fade, some 300, some 0, none⟩ rfl rfl rfl (by norm_num)
      (by norm_num)).2.2.2.2.2.2⟩

/-- Relation between the code's wraparound correction and the spec's
`(-180, 180]` representative: they agree except when the raw difference
is exactly `-180`, where the code keeps `-180` and the spec picks
`180`; both stay within `[-180, 180]`. -/
lemma wrap_delta_cases (i c : ℚ) (hi0 : 0 ≤ i) (hi1 : i < 360)
    (hc0 : 0 ≤ c) (hc1 : c < 360) :
    (calculateRotationDelta i c = wrapDeltaSpec i c ∨
      calculateRotationDelta i c = wrapDeltaSpec i c - 360)
    ∧ (-180 < wrapDeltaSpec i c ∧ wrapDeltaSpec i c ≤ 180)
    ∧ (-180 ≤ calculateRotationDelta i c ∧ calculateRotationDelta i c ≤ 180) := by
  unfold calculateRotationDelta wrapDeltaSpec
  dsimp only
  refine ⟨?_, ?_, ?_⟩
  · split_ifs <;> first | (left; ring1) | (right; ring1) | (exfalso; linarith)
  · split_ifs <;> constructor <;> linarith
  · split_ifs <;> constructor <;> linarith

/-- C6: for angles in `[0, 360)`, `calculateRotation` returns
`initialRotation + delta` normalized to `[0, 360)` — that is, the result
lies in `[0, 360)` and differs from `initialRotation + delta` by a
multiple of `360` — where `delta` is the wraparound-corrected difference
of pointer angles in `(-180, 180]`; in particular the corrected delta
for `initialAngle = 350°, currentAngle = 10°` is `+20°`. -/
theorem calculateRotation_wraparound_spec (T : Trig) (st : RotationState)
    (mouseWorldPos shapeCenter : Point)
    (hr0 : 0 ≤ st.initialRotation) (hr1 : st.initialRotation < 360)
    (hi0 : 0 ≤ st.initialAngle) (hi1 : st.initialAngle < 360)
    (hc0 : 0 ≤ getAngleToPoint T mouseWorldPos shapeCenter)
    (hc1 : getAngleToPoint T mouseWorldPos shapeCenter < 360) :
    (0 ≤ calculateRotation T st mouseWorldPos shapeCenter
      ∧ calculateRotation T st mouseWorldPos shapeCenter < 360)
    ∧ (∃ k : ℤ, calculateRotation T st mouseWorldPos shapeCenter
        = st.initialRotation
          + wrapDeltaSpec st.initialAngle (getAngleToPoint T mouseWorldPos shapeCenter)
          + 360 * (k : ℚ))
    ∧ (-180 < wrapDeltaSpec st.initialAngle (getAngleToPoint T mouseWorldPos shapeCenter)
        ∧ wrapDeltaSpec st.initialAngle (getAngleToPoint T mouseWorldPos shapeCenter) ≤ 180)
    ∧ calculateRotationDelta 350 10 = 20 := by
  obtain ⟨hd, hsr, hcr⟩ := wrap_delta_cases st.initialAngle
    (getAngleToPoint T mouseWorldPos shapeCenter) hi0 hi1 hc0 hc1
  have key : calculateRotation T st mouseWorldPos shapeCenter =
      (if st.initialRotation + calculateRotationDelta st.initialAngle
            (getAngleToPoint T mouseWorldPos shapeCenter) < 0
       then st.initialRotation + calculateRotationDelta st.initialAngle
            (getAngleToPoint T mouseWorldPos shapeCenter) + 360
       else if st.initialRotation + calculateRotationDelta st.initialAngle
            (getAngleToPoint T mouseWorldPos shapeCenter) ≥ 360
       then st.initialRotation + calculateRotationDelta st.initialAngle
            (getAngleToPoint T mouseWorldPos shapeCenter) - 360
       else st.initialRotation + calculateRotationDelta st.initialAngle
            (getAngleToPoint T mouseWorldPos shapeCenter)) := rfl
  refine ⟨?_, ?_, hsr, by norm_num [calculateRotationDelta]⟩
  · rw [key]
    split_ifs <;> constructor <;> linarith [hcr.1, hcr.2, hsr.1, hsr.2]
  · rw [key]
    rcases hd with h | h <;> rw [h] <;> split_ifs
    · exact ⟨1, by push_cast; ring⟩
    · exact ⟨-1, by push_cast; ring⟩
    · exact ⟨0, by push_cast; ring⟩
    · exact ⟨0, by push_cast; ring⟩
    · exact ⟨-2, by push_cast; ring⟩
    · exact ⟨-1, by push_cast; ring⟩

/-- Witness for C6: a session with `initialRotation = 30`,
`initialAngle = 350` and the current pointer angle `0` (from the
abstract `atan2` of `trivTrig`): the result is in range and congruent to
`30 + wrapDeltaSpec 350 0` modulo `360`. -/
theorem calculateRotation_wraparound_spec_witness :
    (0 ≤ calculateRotation trivTrig ⟨30, 350⟩ ⟨0, 0⟩ ⟨0, 0⟩
      ∧ calculateRotation trivTrig ⟨30, 350⟩ ⟨0, 0⟩ ⟨0, 0⟩ < 360)
    ∧ (∃ k : ℤ, calculateRotation trivTrig ⟨30, 350⟩ ⟨0, 0⟩ ⟨0, 0⟩
        = 30 + wrapDeltaSpec 350 (getAngleToPoint trivTrig ⟨0, 0⟩ ⟨0, 0⟩)
          + 360 * (k : ℚ)) :=
  have h := calculateRotation_wraparound_spec trivTrig ⟨30, 350⟩ ⟨0, 0⟩ ⟨0, 0⟩
    (by norm_num) (by norm_num) (by norm_num) (by norm_num)
    (by norm_num [getAngleToPoint, trivTrig]) (by norm_num [getAngleToPoint, trivTrig])
  ⟨h.1, h.2.1⟩

/-- Whenever the handle step reports the rotate circle, it reports no
resize corner (the corner check is skipped). -/
lemma detectHoverHandles_rotate_none (T : Trig) (worldPos : Point)
    (shapes : List Shape) (selectedShapeIndex : ℤ) (zoom : ℚ)
    (isValidShapeIdx : ℤ → Bool) :
    (detectHoverHandles T worldPos shapes selectedShapeIndex zoom isValidShapeIdx).1 = true →
    (detectHoverHandles T worldPos shapes selectedShapeIndex zoom isValidShapeIdx).2 = none := by
  unfold detectHoverHandles
  split_ifs with hv
  · cases hj : jsGet shapes selectedShapeIndex with
    | some s =>
      dsimp only
      split_ifs with hb <;> simp
    | none => simp
  · simp

/-- C5: `detectHover` has at most one active field (rotate flag, corner,
body index), prefers the rotate handle over a simultaneously hit resize
corner, and under the editor's validator its body-hover index never
equals the selected shape's index. -/
theorem detectHover_priority_invariants (T : Trig) (worldPos : Point)
    (shapes : List Shape) (selectedShapeIndex : ℤ) (zoom : ℚ)
    (isValidShapeIdx : ℤ → Bool) :
    ((detectHover T worldPos shapes selectedShapeIndex zoom isValidShapeIdx).isHoveringRotateCircle = true →
      (detectHover T worldPos shapes selectedShapeIndex zoom isValidShapeIdx).resizeCorner = none
      ∧ (detectHover T worldPos shapes selectedShapeIndex zoom isValidShapeIdx).shapeIndex = INVALID_INDEX)
    ∧ ((detectHover T worldPos shapes selectedShapeIndex zoom isValidShapeIdx).resizeCorner ≠ none →
      (detectHover T worldPos shapes selectedShapeIndex zoom isValidShapeIdx).isHoveringRotateCircle = false
      ∧ (detectHover T worldPos shapes selectedShapeIndex zoom isValidShapeIdx).shapeIndex = INVALID_INDEX)
    ∧ ((detectHover T worldPos shapes selectedShapeIndex zoom isValidShapeIdx).shapeIndex ≠ INVALID_INDEX →
      (detectHover T worldPos shapes selectedShapeIndex zoom isValidShapeIdx).isHoveringRotateCircle = false
      ∧ (detectHover T worldPos shapes selectedShapeIndex zoom isValidShapeIdx).resizeCorner = none)
    ∧ (∀ s : Shape, isValidShapeIndexEditor shapes selectedShapeIndex = true →
        jsGet shapes selectedShapeIndex = some s →
        isHoveringRotateCircle T worldPos s zoom s.rotate = true →
        getHoveredResizeCorner T worldPos s zoom s.rotate ≠ none →
        (detectHover T worldPos shapes selectedShapeIndex zoom
          (isValidShapeIndexEditor shapes)).isHoveringRotateCircle = true
        ∧ (detectHover T worldPos shapes selectedShapeIndex zoom
            (isValidShapeIndexEditor shapes)).resizeCorner = none)
    ∧ (isValidShapeIndexEditor shapes selectedShapeIndex = true →
        (detectHover T worldPos shapes selectedShapeIndex zoom
          (isValidShapeIndexEditor shapes)).shapeIndex ≠ selectedShapeIndex) := by
  have hr := detectHoverHandles_rotate_none T worldPos shapes selectedShapeIndex zoom
    isValidShapeIdx
  have hfields : detectHover T worldPos shapes selectedShapeIndex zoom isValidShapeIdx =
      ⟨if (detectHoverHandles T worldPos shapes selectedShapeIndex zoom isValidShapeIdx).1 = false
          ∧ (detectHoverHandles T worldPos shapes selectedShapeIndex zoom isValidShapeIdx).2 = none
        then (if findShapeAtPoint worldPos shapes ≠ selectedShapeIndex
              then findShapeAtPoint worldPos shapes else INVALID_INDEX)
        else INVALID_INDEX,
       (detectHoverHandles T worldPos shapes selectedShapeIndex zoom isValidShapeIdx).2,
       (detectHoverHandles T worldPos shapes selectedShapeIndex zoom isValidShapeIdx).1⟩ := rfl
  refine ⟨?_, ?_, ?_, ?_, ?_⟩
  · rw [hfields]
    dsimp only
    intro h
    exact ⟨hr h, by simp [h, hr h]⟩
  · rw [hfields]
    dsimp only
    intro h
    have h1 : (detectHoverHandles T worldPos shapes selectedShapeIndex zoom isValidShapeIdx).1 = false := by
      rcases Bool.eq_false_or_eq_true
        (detectHoverHandles T worldPos shapes selectedShapeIndex zoom isValidShapeIdx).1 with hb | hb
      · exact absurd (hr hb) h
      · exact hb
    exact ⟨h1, by simp [h]⟩
  · rw [hfields]
    dsimp only
    intro h
    by_cases hc : (detectHoverHandles T worldPos shapes selectedShapeIndex zoom isValidShapeIdx).1 = false
        ∧ (detectHoverHandles T worldPos shapes selectedShapeIndex zoom isValidShapeIdx).2 = none
    · exact hc
    · rw [if_neg hc] at h
      exact absurd rfl h
  · intro s hv hj hrot hcorner
    have hH2 : detectHoverHandles T worldPos shapes selectedShapeIndex zoom
        (isValidShapeIndexEditor shapes) = (true, none) := by
      simp [detectHoverHandles, hv, hj, hrot]
    constructor <;> simp [detectHover, hH2]
  · intro hv
    have hsel : selectedShapeIndex ≠ INVALID_INDEX := by
      intro hEq
      rw [hEq] at hv
      simp [isValidShapeIndexEditor] at hv
    have hfields2 : detectHover T worldPos shapes selectedShapeIndex zoom
        (isValidShapeIndexEditor shapes) =
        ⟨if (detectHoverHandles T worldPos shapes selectedShapeIndex zoom (isValidShapeIndexEditor shapes)).1 = false
            ∧ (detectHoverHandles T worldPos shapes selectedShapeIndex zoom (isValidShapeIndexEditor shapes)).2 = none
          then (if findShapeAtPoint worldPos shapes ≠ selectedShapeIndex
                then findShapeAtPoint worldPos shapes else INVALID_INDEX)
          else INVALID_INDEX,
         (detectHoverHandles T worldPos shapes selectedShapeIndex zoom (isValidShapeIndexEditor shapes)).2,
         (detectHoverHandles T worldPos shapes selectedShapeIndex zoom (isValidShapeIndexEditor shapes)).1⟩ := rfl
    rw [hfields2]
    dsimp only
    split_ifs with h1 h2
    · exact h2
    · exact fun hEq => hsel hEq.symm
    · exact fun hEq => hsel hEq.symm

/-- Witness for C5: zoom `10`, one selected `10×10` shape at the origin,
pointer at `(2, -1)` — inside both the rotate-handle circle (center
`(5, -3)`, radius `12`) and the top-right corner circle — yet the
result reports the rotate handle and no corner. -/
theorem detectHover_priority_invariants_witness :
    (detectHover trivTrig ⟨2, -1⟩ [⟨0, 0, 10, 10, none⟩] 0 10
      (isValidShapeIndexEditor [⟨0, 0, 10, 10, none⟩])).isHoveringRotateCircle = true
    ∧ (detectHover trivTrig ⟨2, -1⟩ [⟨0, 0, 10, 10, none⟩] 0 10
      (isValidShapeIndexEditor [⟨0, 0, 10, 10, none⟩])).resizeCorner = none :=
  (detectHover_priority_invariants trivTrig ⟨2, -1⟩ [⟨0, 0, 10, 10, none⟩] 0 10
      (isValidShapeIndexEditor [⟨0, 0, 10, 10, none⟩])).2.2.2.1 ⟨0, 0, 10, 10, none⟩
    (by norm_num [isValidShapeIndexEditor, jsGet, INVALID_INDEX])
    (by norm_num [jsGet])
    (by norm_num [isHoveringRotateCircle, worldToLocalSpace, isPointInCircle,
      getResizeCircleRadius, DEFAULT_TOOL_BORDER])
    (by
      have hc : getHoveredResizeCorner trivTrig ⟨2, -1⟩ ⟨0, 0, 10, 10, none⟩ 10 none
          = some ResizeCorner.topRight := by
        norm_num [getHoveredResizeCorner, worldToLocalSpace, isPointInCircle,
          getResizeCircleRadius, DEFAULT_TOOL_BORDER, getShapeCorners]
      simp [hc])
